import Mathlib

/-!
Shallow embedding of the ContextMAN server (`server/main.py`, `server/run.py`).

The service is thin glue: three HTTP handlers (`/ping`, `/parse`,
`/synthesize`) over two external delegates (a browsing agent and a chat
completion API).  We model each handler as a pure function of the request
and of the delegate's behaviour (a function from the value the handler
passes to the delegate to the delegate's outcome: either a raised
exception, carrying its message, or a returned value).  Python truthiness
(`if not result:`, `if request.user_code`) is modelled by `pyTruthy` on
`Option String`: `None` and the empty string are falsy.  A Python
`try/except Exception` block is modelled by an `Except PyExc` computation
whose error is then re-wrapped by the handler's `except` clause; FastAPI's
`HTTPException` derives from `Exception`, so it too is caught, and
`str(e)` on an `HTTPException` is `"<status_code>: <detail>"` (Starlette's
`HTTPException.__str__`).
-/

set_option maxRecDepth 10000

namespace ContextMAN

/-- The `MODEL_NAME` constant of `server/main.py` (line 29). -/
def MODEL_NAME : String := "mixtral-8x7b-32768"

/-- A FastAPI `HTTPException`: status code and client-visible detail. -/
structure HTTPException where
  status_code : Nat
  detail : String
deriving DecidableEq, Repr

/-- A Python exception as the handlers see it: either an `HTTPException`
(FastAPI's, which derives from `Exception`) or any other exception,
carried by its message (`str(e)`). -/
inductive PyExc where
  | http (e : HTTPException)
  | generic (msg : String)
deriving DecidableEq, Repr

/-- Python `str(e)`: Starlette's `HTTPException.__str__` is
`f"{self.status_code}: {self.detail}"`; for a generic exception we carry
the message directly. -/
def PyExc.str : PyExc → String
  | .http e => toString e.status_code ++ ": " ++ e.detail
  | .generic msg => msg

/-- Python truthiness of a `str | None` value: `None` and `""` are falsy. -/
def pyTruthy : Option String → Bool
  | none => false
  | some s => !s.isEmpty

/-- The `ParseRequest` model (line 41): a URL, validated upstream by pydantic. -/
structure ParseRequest where
  url : String

/-- The success payload of `/parse`: `{"parsed_content": result}`. -/
structure ParseResponse where
  parsed_content : String
deriving DecidableEq, Repr

/-- The outcome of `await agent.run()`: either an exception (any exception
raised inside the `try` block, carried by its message) or a returned
value, possibly `None` or empty. -/
inductive AgentOutcome where
  | raises (msg : String)
  | returns (result : Option String)

/-- The task string built by `parse_url` (lines 64-72): the f-string with
the URL substituted, followed by the adjacent literals. -/
def parsing_task (url : String) : String :=
  "You are a web scraping assistant. Your ONLY job is to extract text from the provided URL: "
    ++ url ++ ". "
    ++ "DO NOT navigate to any other URLs. DO NOT use search. "
    ++ "Your primary goal is to extract the full user-assistant conversation from the page. "
    ++ "Identify each turn of the conversation clearly, separating user and assistant roles. "
    ++ "If there are code blocks within the conversation, ensure they are included and properly formatted using markdown code fences (```). "
    ++ "If the page does not contain a conversation, return the main text content of the page. "
    ++ "Return only the final extracted text as a single string."

/-- The `HTTPException` raised at line 92 when the agent result is falsy. -/
def empty_result_exception : HTTPException :=
  ⟨500, "The browser agent failed to extract content. Check server logs."⟩

/-- The body of `parse_url`'s `try` block (lines 74-95): run the agent on
the parsing task; if the result is falsy, raise the empty-result
`HTTPException`; otherwise return `{"parsed_content": result}`. -/
def parse_try_body (req : ParseRequest) (run : String → AgentOutcome) :
    Except PyExc ParseResponse :=
  match run (parsing_task req.url) with
  | .raises msg => .error (.generic msg)
  | .returns result =>
    if pyTruthy result then .ok ⟨result.getD ""⟩
    else .error (.http empty_result_exception)

/-- The `/parse` handler (lines 57-98): the `try` body wrapped by
`except Exception as e: raise HTTPException(500, f"Failed to parse URL: {str(e)}")`.
Note the `except` clause also catches the `HTTPException` raised inside
the `try` block. -/
def parse_url (req : ParseRequest) (run : String → AgentOutcome) :
    Except HTTPException ParseResponse :=
  match parse_try_body req run with
  | .ok resp => .ok resp
  | .error e => .error ⟨500, "Failed to parse URL: " ++ e.str⟩

/-- The `SynthesizeRequest` model (lines 44-47): `user_code` defaults to
`None`, so an omitted field and an explicit `null` are both `none`. -/
structure SynthesizeRequest where
  purpose : String
  parsed_context : String
  user_code : Option String

/-- The success payload of `/synthesize`: `{"synthesized_prompt": ...}`. -/
structure SynthesizeResponse where
  synthesized_prompt : String
deriving DecidableEq, Repr

/-- A role-tagged chat message, as passed to the completion API. -/
structure Message where
  role : String
  content : String
deriving DecidableEq, Repr

/-- One choice of a chat completion: `choice.message`. -/
structure Choice where
  message : Message
deriving DecidableEq, Repr

/-- A chat completion response: `response.choices`. -/
structure Completion where
  choices : List Choice
deriving DecidableEq, Repr

/-- The arguments the handler passes to
`client.chat.completions.create` (lines 133-140). -/
structure ChatRequest where
  model : String
  messages : List Message
  temperature : Float

/-- The outcome of the awaited completion call: either an exception
(carried by its message) or a completion object. -/
inductive ChatOutcome where
  | raises (msg : String)
  | returns (response : Completion)

/-- The fixed system prompt of `synthesize_context` (lines 109-117),
verbatim (apostrophes written as the escape x27). -/
def system_prompt : String :=
  "You are an expert AI assistant named ContextMAN. Your job is to take a user\x27s goal, a messy block of context (like a chat history), and optional user-provided code, and synthesize them into a single, perfectly structured, portable prompt that can be used with any advanced AI model.\n\nFollow these rules precisely:\n1.  Start with a clear heading `### CONTEXT BRIEF ###`.\n2.  State the user\x27s ultimate goal clearly under a `**Goal:**` heading.\n3.  Include a `**Key Information from Context:**` section where you concisely summarize the most important findings and takeaways from the provided chat history.\n4.  If the user provided their own code, include it under a `**User-Provided Code:**` section, inside a proper markdown code block. If no code is provided, state \x27N/A\x27.\n5.  Finally, create a `---` separator and provide a `**Suggested Prompt:**` that clearly and directly tells the next AI what to do based on all the assembled context. This prompt should be ready to be copy-pasted.\n"

/-- Line 119: the code section of the user message is a fenced block
around `user_code` when that value is truthy, and the literal string
"N/A" when it is `None` or empty. -/
def user_code_section (user_code : Option String) : String :=
  if pyTruthy user_code then "```\n" ++ (user_code.getD "" ++ "\n```") else "N/A"

/-- The user message assembled at lines 121-131: the f-string
interpolating the request's purpose, parsed context and code section. -/
def user_message (req : SynthesizeRequest) : String :=
  "Here is the information to synthesize:\n\n**User\x27s Goal:**\n"
    ++ (req.purpose
    ++ ("\n\n**Messy Context / Chat History:**\n"
    ++ (req.parsed_context
    ++ ("\n\n**User\x27s Code (if any):**\n"
    ++ (user_code_section req.user_code
    ++ "\n")))))

/-- The single chat-completion call's arguments (lines 133-139): the
fixed model constant, the two-message list and temperature 0.5. -/
def synth_chat_request (req : SynthesizeRequest) : ChatRequest :=
  ⟨MODEL_NAME, [⟨"system", system_prompt⟩, ⟨"user", user_message req⟩], 0.5⟩

/-- The body of `synthesize_context`'s `try` block (lines 132-143): one
completion call; `response.choices[0]` raises `IndexError` on an empty
list, caught like any other exception. -/
def synth_try_body (req : SynthesizeRequest) (create : ChatRequest → ChatOutcome) :
    Except PyExc SynthesizeResponse :=
  match create (synth_chat_request req) with
  | .raises msg => .error (.generic msg)
  | .returns response =>
    match response.choices with
    | [] => .error (.generic "list index out of range")
    | choice :: _ => .ok ⟨choice.message.content⟩

/-- The `/synthesize` handler (lines 101-146): the `try` body wrapped by
`except Exception as e: raise HTTPException(500, f"Failed to synthesize context: {str(e)}")`. -/
def synthesize_context (req : SynthesizeRequest) (create : ChatRequest → ChatOutcome) :
    Except HTTPException SynthesizeResponse :=
  match synth_try_body req create with
  | .ok resp => .ok resp
  | .error e => .error ⟨500, "Failed to synthesize context: " ++ e.str⟩

/-- Python `os.getenv`: the first binding of the key in the process
environment, or `None` when the key is absent. -/
def os_getenv (env : List (String × String)) (key : String) : Option String :=
  (env.find? (fun p => p.1 == key)).map (fun p => p.2)

/-- The process-wide read-only configuration established at module load:
the credential and the model name. -/
structure Config where
  groq_api_key : String
  model_name : String
deriving DecidableEq, Repr

/-- Module initialization of `server/main.py` (lines 28-38): read
`GROQ_API_KEY` from the environment; `if not GROQ_API_KEY:` raises
`ValueError` (both for an absent key and for an empty one) before the
Groq client or any route is set up. -/
def startup_config (env : List (String × String)) : Except String Config :=
  let groq_api_key := os_getenv env "GROQ_API_KEY"
  if pyTruthy groq_api_key then .ok ⟨groq_api_key.getD "", MODEL_NAME⟩
  else .error "GROQ_API_KEY environment variable not set. Please create a .env file."

/-- A listening HTTP server: `uvicorn.run(app, host="127.0.0.1", port=8000)`
in `server/run.py`. -/
structure Listener where
  host : String
  port : Nat
  cfg : Config
deriving DecidableEq, Repr

/-- The bootstrap of `server/run.py`: `from main import app` runs module
initialization (`startup_config`); only if that succeeds does
`uvicorn.run` create the listener. -/
def run_server (env : List (String × String)) : Except String Listener :=
  match startup_config env with
  | .error msg => .error msg
  | .ok cfg => .ok ⟨"127.0.0.1", 8000, cfg⟩

/-- The `/ping` payload: `{"status": ..., "message": ...}`. -/
structure PingResponse where
  status : String
  message : String
deriving DecidableEq, Repr

/-- The process state visible to a handler: just the read-only
configuration (the service keeps no other process-wide state). -/
structure ServerState where
  cfg : Config
deriving DecidableEq, Repr

/-- The `/ping` handler `read_root` (lines 51-54): returns the fixed
status payload and leaves the process state untouched (its body only
reads `MODEL_NAME`). -/
def read_root (s : ServerState) : PingResponse × ServerState :=
  (⟨"ok", "ContextMAN server is running on Groq with model: " ++ s.cfg.model_name⟩, s)

/-- A sequence of `n` consecutive `/ping` calls threading the process
state: the list of responses and the final state. -/
def ping_trace : Nat → ServerState → List PingResponse × ServerState
  | 0, s => ([], s)
  | Nat.succ n, s =>
    let call := read_root s
    let rest := ping_trace n call.2
    (call.1 :: rest.1, rest.2)

/-! Helper lemmas shared by several theorems. -/

/-- A string whose `isEmpty` is `false` is not the empty string. -/
theorem ne_empty_of_isEmpty_false (s : String) (h : s.isEmpty = false) : s ≠ "" := by
  intro he
  rw [he] at h
  exact absurd h (by decide)

/-- A fenced code block is never the three-character string "N/A"
(their lengths differ). -/
theorem fenced_block_ne_na (s : String) : "```\n" ++ (s ++ "\n```") ≠ "N/A" := by
  intro h
  have h2 := congrArg String.length h
  rw [String.length_append, String.length_append] at h2
  have e1 : ("```\n" : String).length = 4 := rfl
  have e2 : ("\n```" : String).length = 4 := rfl
  have e3 : ("N/A" : String).length = 3 := rfl
  rw [e1, e2, e3] at h2
  omega

/-- C1: for every ParseRequest and every behaviour of the extraction
delegate, `/parse` either fails with an HTTP 500 error or returns a 200
response whose `parsed_content` is the non-empty (truthy) value the
delegate returned; it never returns a 200 response when the delegate's
result is empty or falsy. -/
theorem parse_never_returns_empty_200 (req : ParseRequest) (run : String → AgentOutcome) :
    (∃ e, parse_url req run = .error e ∧ e.status_code = 500) ∨
    (∃ s, run (parsing_task req.url) = .returns (some s) ∧ s ≠ "" ∧
      parse_url req run = .ok ⟨s⟩) := by
  cases h : run (parsing_task req.url) with
  | raises msg =>
    exact Or.inl ⟨⟨500, "Failed to parse URL: " ++ PyExc.str (.generic msg)⟩,
      by simp [parse_url, parse_try_body, h], rfl⟩
  | returns result =>
    cases result with
    | none =>
      exact Or.inl ⟨⟨500, "Failed to parse URL: " ++ PyExc.str (.http empty_result_exception)⟩,
        by simp [parse_url, parse_try_body, h, pyTruthy], rfl⟩
    | some s =>
      cases he : s.isEmpty with
      | true =>
        refine Or.inl ⟨⟨500, "Failed to parse URL: " ++ PyExc.str (.http empty_result_exception)⟩, ?_, rfl⟩
        simp [parse_url, parse_try_body, h, pyTruthy, he]
      | false =>
        refine Or.inr ⟨s, rfl, ne_empty_of_isEmpty_false s he, ?_⟩
        simp [parse_url, parse_try_body, h, pyTruthy, he]

/-- C2, as stated, is false on the code: with `user_code` provided and
equal to `""` (non-null), the assembled user message embeds "N/A" and no
fenced block wrapping the code, because line 119's truthiness test
treats `""` like `None`. Shown at the concrete request
⟨"summarize", "c", some ""⟩. -/
theorem user_message_empty_code_counterexample :
    user_message ⟨"summarize", "c", some ""⟩ =
      "Here is the information to synthesize:\n\n**User\x27s Goal:**\nsummarize\n\n**Messy Context / Chat History:**\nc\n\n**User\x27s Code (if any):**\nN/A\n" ∧
    user_code_section (some "") = "N/A" ∧
    user_code_section (some "") ≠ "```\n" ++ ("" ++ "\n```") ∧
    (some "" : Option String) ≠ none := by
  refine ⟨rfl, rfl, ?_, by decide⟩
  intro h
  exact absurd h.symm (by decide)

/-- C2 (amended): the user message embeds the code section built at line
119, which is the literal "N/A" exactly when `user_code` is omitted,
null, or the empty string, and is a markdown-fenced block wrapping the
exact `user_code` text whenever `user_code` is a non-empty string. -/
theorem user_message_code_section (req : SynthesizeRequest) :
    (user_code_section req.user_code = "N/A" ↔
      (req.user_code = none ∨ req.user_code = some "")) ∧
    (∀ s, req.user_code = some s → s ≠ "" →
      user_code_section req.user_code = "```\n" ++ (s ++ "\n```")) ∧
    (∃ pre, user_message req = pre ++ (user_code_section req.user_code ++ "\n")) := by
  refine ⟨?_, ?_, ?_⟩
  · cases huc : req.user_code with
    | none => simp [user_code_section, pyTruthy]
    | some s =>
      cases he : s.isEmpty with
      | true =>
        have hs : s = "" := (String.isEmpty_iff s).mp he
        subst hs
        simp [user_code_section, pyTruthy, he]
      | false =>
        have hs : s ≠ "" := ne_empty_of_isEmpty_false s he
        simp only [user_code_section, pyTruthy, he]
        constructor
        · intro hf
          exact absurd hf (by simp [fenced_block_ne_na s])
        · rintro (h | h)
          · exact absurd h (by simp)
          · have : s = "" := by injection h
            exact absurd this hs
  · intro s hs hne
    have he : s.isEmpty = false := by
      cases hb : s.isEmpty with
      | true => exact absurd ((String.isEmpty_iff s).mp hb) hne
      | false => rfl
    simp [user_code_section, pyTruthy, hs, he]
  · exact ⟨"Here is the information to synthesize:\n\n**User\x27s Goal:**\n"
      ++ (req.purpose
      ++ ("\n\n**Messy Context / Chat History:**\n"
      ++ (req.parsed_context
      ++ "\n\n**User\x27s Code (if any):**\n"))),
      by simp [user_message, String.append_assoc]⟩

/-- C3: for both POST handlers, when the delegate invocation raises any
exception, the handler fails with an HTTP 500 response whose detail
contains that exception's message — no exception escapes the handler
unhandled, and no distinction is made among exception kinds. -/
theorem delegate_exception_maps_to_500 :
    (∀ (req : ParseRequest) (run : String → AgentOutcome) (msg : String),
      run (parsing_task req.url) = .raises msg →
      ∃ pre post, parse_url req run = .error ⟨500, pre ++ (msg ++ post)⟩) ∧
    (∀ (req : SynthesizeRequest) (create : ChatRequest → ChatOutcome) (msg : String),
      create (synth_chat_request req) = .raises msg →
      ∃ pre post, synthesize_context req create = .error ⟨500, pre ++ (msg ++ post)⟩) := by
  constructor
  · intro req run msg h
    refine ⟨"Failed to parse URL: ", "", ?_⟩
    rw [String.append_empty]
    simp [parse_url, parse_try_body, h, PyExc.str]
  · intro req create msg h
    refine ⟨"Failed to synthesize context: ", "", ?_⟩
    rw [String.append_empty]
    simp [synthesize_context, synth_try_body, h, PyExc.str]

/-- C4, as stated, is false on the code: when the delegate returns an
empty result, the `HTTPException` raised at line 92 is itself caught by
line 96's `except Exception`, so the client-visible detail is the
generic wrapper's message (which stringifies the inner exception), not
the bare empty-result message. Shown with a stub delegate returning "". -/
theorem parse_empty_result_detail_counterexample :
    parse_url ⟨"http://example.com"⟩ (fun _ => .returns (some "")) =
      .error ⟨500, "Failed to parse URL: 500: The browser agent failed to extract content. Check server logs."⟩ ∧
    "Failed to parse URL: 500: The browser agent failed to extract content. Check server logs." ≠
      empty_result_exception.detail := by
  exact ⟨rfl, by decide⟩

/-- C4 (amended): when the extraction delegate returns an empty or falsy
result, `/parse` fails with a 500 whose client-visible detail is the
generic handler's wrapping of the stringified empty-result exception:
"Failed to parse URL: 500: The browser agent failed to extract content.
Check server logs.". -/
theorem parse_empty_result_wrapped_500 (req : ParseRequest)
    (run : String → AgentOutcome) (result : Option String)
    (hr : run (parsing_task req.url) = .returns result)
    (hf : pyTruthy result = false) :
    parse_url req run =
      .error ⟨500, "Failed to parse URL: " ++ PyExc.str (.http empty_result_exception)⟩ := by
  simp [parse_url, parse_try_body, hr, hf]

/-- Witness for C4's amended theorem: a stub delegate returning `None`. -/
theorem parse_empty_result_wrapped_500_witness :
    parse_url ⟨"http://example.com"⟩ (fun _ => .returns none) =
      .error ⟨500, "Failed to parse URL: " ++ PyExc.str (.http empty_result_exception)⟩ :=
  parse_empty_result_wrapped_500 ⟨"http://example.com"⟩ (fun _ => .returns none) none rfl rfl

/-- C5: `/synthesize` makes its single chat-completion call with the
fixed model constant, the ordered two-message list [system, user] and a
temperature, and whenever that call returns a completion with a first
choice, the handler returns a 200 whose `synthesized_prompt` is that
first choice's message text. -/
theorem synthesize_single_call_contract (req : SynthesizeRequest)
    (create : ChatRequest → ChatOutcome) :
    (synth_chat_request req).model = MODEL_NAME ∧
    (synth_chat_request req).messages =
      [⟨"system", system_prompt⟩, ⟨"user", user_message req⟩] ∧
    (synth_chat_request req).temperature = 0.5 ∧
    (∀ choice rest, create (synth_chat_request req) = .returns ⟨choice :: rest⟩ →
      synthesize_context req create = .ok ⟨choice.message.content⟩) := by
  refine ⟨rfl, rfl, rfl, ?_⟩
  intro choice rest h
  simp [synthesize_context, synth_try_body, h]

/-- C6: for every SynthesizeRequest the system message is the fixed
`system_prompt`, independent of the request; that prompt consists of a
preamble followed by 5 numbered formatting rules in order, the first of
which instructs starting with the literal heading
"### CONTEXT BRIEF ###"; and the user message interpolates the purpose,
the parsed context, and the code-or-"N/A" section, each under its fixed
heading, in that order. -/
theorem synth_prompt_structure (req : SynthesizeRequest) :
    (synth_chat_request req).messages =
      [⟨"system", system_prompt⟩, ⟨"user", user_message req⟩] ∧
    (∃ post, system_prompt =
      "You are an expert AI assistant named ContextMAN. Your job is to take a user\x27s goal, a messy block of context (like a chat history), and optional user-provided code, and synthesize them into a single, perfectly structured, portable prompt that can be used with any advanced AI model.\n\nFollow these rules precisely:\n"
        ++ ("1.  Start with a clear heading `### CONTEXT BRIEF ###`.\n" ++ post)) ∧
    (∃ s0 s1 s2 s3 s4 s5, system_prompt =
      s0 ++ ("1.  " ++ (s1 ++ ("2.  " ++ (s2 ++ ("3.  " ++ (s3 ++ ("4.  " ++ (s4 ++ ("5.  " ++ s5)))))))))) ∧
    user_message req =
      "Here is the information to synthesize:\n\n**User\x27s Goal:**\n"
        ++ (req.purpose
        ++ ("\n\n**Messy Context / Chat History:**\n"
        ++ (req.parsed_context
        ++ ("\n\n**User\x27s Code (if any):**\n"
        ++ (user_code_section req.user_code ++ "\n"))))) := by
  refine ⟨rfl, ?_, ?_, rfl⟩
  · exact ⟨"2.  State the user\x27s ultimate goal clearly under a `**Goal:**` heading.\n3.  Include a `**Key Information from Context:**` section where you concisely summarize the most important findings and takeaways from the provided chat history.\n4.  If the user provided their own code, include it under a `**User-Provided Code:**` section, inside a proper markdown code block. If no code is provided, state \x27N/A\x27.\n5.  Finally, create a `---` separator and provide a `**Suggested Prompt:**` that clearly and directly tells the next AI what to do based on all the assembled context. This prompt should be ready to be copy-pasted.\n",
      rfl⟩
  · exact ⟨"You are an expert AI assistant named ContextMAN. Your job is to take a user\x27s goal, a messy block of context (like a chat history), and optional user-provided code, and synthesize them into a single, perfectly structured, portable prompt that can be used with any advanced AI model.\n\nFollow these rules precisely:\n",
      "Start with a clear heading `### CONTEXT BRIEF ###`.\n",
      "State the user\x27s ultimate goal clearly under a `**Goal:**` heading.\n",
      "Include a `**Key Information from Context:**` section where you concisely summarize the most important findings and takeaways from the provided chat history.\n",
      "If the user provided their own code, include it under a `**User-Provided Code:**` section, inside a proper markdown code block. If no code is provided, state \x27N/A\x27.\n",
      "Finally, create a `---` separator and provide a `**Suggested Prompt:**` that clearly and directly tells the next AI what to do based on all the assembled context. This prompt should be ready to be copy-pasted.\n",
      rfl⟩

/-- C7: if the inference-API credential is absent from the process
environment, module initialization fails with the `ValueError` message
and `run_server` never produces a listener, so the service never
accepts connections. -/
theorem missing_credential_fails_startup (env : List (String × String))
    (h : os_getenv env "GROQ_API_KEY" = none) :
    run_server env =
      .error "GROQ_API_KEY environment variable not set. Please create a .env file." ∧
    ∀ l : Listener, run_server env ≠ .ok l := by
  have hs : startup_config env =
      .error "GROQ_API_KEY environment variable not set. Please create a .env file." := by
    simp [startup_config, h, pyTruthy]
  refine ⟨by simp [run_server, hs], ?_⟩
  intro l hl
  rw [run_server, hs] at hl
  exact Except.noConfusion hl

/-- Witness for C7: the empty environment has no credential. -/
theorem missing_credential_fails_startup_witness :
    run_server [] =
      .error "GROQ_API_KEY environment variable not set. Please create a .env file." :=
  (missing_credential_fails_startup [] rfl).1

/-- C8: every `/ping` call returns the same fixed status payload built
from the configured model name, never fails, and leaves the process
state unchanged — a trace of any number of consecutive calls is a
constant list of that payload with the state intact. -/
theorem ping_deterministic_no_side_effects (n : Nat) (s : ServerState) :
    (ping_trace n s).2 = s ∧
    (ping_trace n s).1 = List.replicate n (read_root s).1 ∧
    (read_root s).1 =
      ⟨"ok", "ContextMAN server is running on Groq with model: " ++ s.cfg.model_name⟩ ∧
    (read_root s).2 = s := by
  refine ⟨?_, ?_, rfl, rfl⟩
  · induction n with
    | zero => rfl
    | succ n ih => simpa [ping_trace, read_root] using ih
  · induction n with
    | zero => rfl
    | succ n ih => simpa [ping_trace, read_root, List.replicate] using ih

/-- C9: every error response produced by `/parse` — the empty-result
case included — is a 500 whose client-visible detail begins with
"Failed to parse URL: ", because every exception raised inside the
`try` block, the empty-result `HTTPException` included, is caught by
the generic handler and re-wrapped. -/
theorem parse_error_detail_prefix (req : ParseRequest)
    (run : String → AgentOutcome) (e : HTTPException)
    (h : parse_url req run = .error e) :
    e.status_code = 500 ∧ ∃ rest, e.detail = "Failed to parse URL: " ++ rest := by
  rw [parse_url] at h
  cases hb : parse_try_body req run with
  | ok resp =>
    rw [hb] at h
    exact Except.noConfusion h
  | error pe =>
    rw [hb] at h
    injection h with h1
    rw [← h1]
    exact ⟨rfl, pe.str, rfl⟩

/-- Witness for C9: the delegate returning an empty string yields an
error whose detail carries the prefix. -/
theorem parse_error_detail_prefix_witness :
    (⟨500, "Failed to parse URL: 500: The browser agent failed to extract content. Check server logs."⟩ : HTTPException).status_code = 500 ∧
    ∃ rest, (⟨500, "Failed to parse URL: 500: The browser agent failed to extract content. Check server logs."⟩ : HTTPException).detail =
      "Failed to parse URL: " ++ rest :=
  parse_error_detail_prefix ⟨"http://example.com"⟩ (fun _ => .returns (some ""))
    ⟨500, "Failed to parse URL: 500: The browser agent failed to extract content. Check server logs."⟩ rfl

/-- C10: when `user_code` is present but equal to the empty string, the
assembled user message embeds "N/A" (line 119's truthiness test treats
`""` like `None`), not an empty fenced code block. -/
theorem empty_user_code_section_is_na (purpose ctx : String) :
    user_code_section (some "") = "N/A" ∧
    user_message ⟨purpose, ctx, some ""⟩ =
      "Here is the information to synthesize:\n\n**User\x27s Goal:**\n"
        ++ (purpose
        ++ ("\n\n**Messy Context / Chat History:**\n"
        ++ (ctx
        ++ ("\n\n**User\x27s Code (if any):**\n"
        ++ ("N/A" ++ "\n"))))) ∧
    user_code_section (some "") ≠ "```\n" ++ ("" ++ "\n```") := by
  refine ⟨rfl, rfl, ?_⟩
  intro h
  exact absurd h.symm (by decide)

end ContextMAN
